import Mathlib

/-
  Verification of the Trading-Bot frontend core against its specification.

  The definitions below are a shallow embedding of the JavaScript source:
  - `tradingReducer` embeds src/trading-frontend/src/context/TradingContext.js
  - `findIndexJs` / `crossoverPoint` embed the MACD crossover alignment of MACDChart
  - `candlestickChartData` embeds the trace construction of CandlestickChart
  - `getMetricType` embeds PerformanceMetrics.getMetricType
  - `fetchData` / `runBacktest` / `getSymbols` / `getIntervals` embed the
    useTradingData hook (state effects of one completed call)

  JavaScript timestamps are modelled as integers (epoch milliseconds, the value
  of Date.getTime()), prices and percentages as rationals, and JS `null`/absent
  fields as `Option`.
-/

namespace TradingBot

/-- One OHLCV bar as consumed by CandlestickChart (fields d.Open, d.High, d.Low, d.Close). -/
structure OHLCVBar where
  Open : Rat
  High : Rat
  Low : Rat
  Close : Rat
  Volume : Rat
deriving DecidableEq

/-- The market dataset: response.data.data, with timestamps and ohlcv arrays. -/
structure MarketDataset where
  timestamps : List Int
  ohlcv : List OHLCVBar
deriving DecidableEq

/-- The ema_200 indicator series. -/
structure Ema where
  timestamps : List Int
  values : List Rat
deriving DecidableEq

/-- The macd indicator series: value line, signal line, histogram. -/
structure Macd where
  timestamps : List Int
  values : List Rat
  signal : List Rat
  histogram : List Rat
deriving DecidableEq

/-- The indicators object: may carry an ema_200 and a macd series. -/
structure Indicators where
  ema_200 : Option Ema
  macd : Option Macd
deriving DecidableEq

/-- One executed trade as delivered by the backend. -/
structure Trade where
  entry_date : Int
  exit_date : Int
  entry_price : Rat
  exit_price : Rat
  return_pct : Rat
  exit_reason : String
deriving DecidableEq

/-- The aggregate performance summary consumed by PerformanceMetrics. -/
structure Performance where
  total_return : Rat
  win_rate : Rat
  total_trades : Nat
  winning_trades : Nat
  losing_trades : Nat
  average_return : Rat
  best_trade : Rat
  worst_trade : Rat
  max_drawdown : Rat
  take_profit_hits : Nat
  stop_loss_hits : Nat
  sharpe_ratio : Rat
deriving DecidableEq

/-! ## ResultStore: the TradingContext reducer -/

/-- The reducer state of TradingContext.js (data fields, UI flags, configuration). -/
structure TradingState where
  data : Option MarketDataset
  indicators : Option Indicators
  trades : Option (List Trade)
  performance : Option Performance
  loading : Bool
  error : Option String
  isConnected : Bool
  isLiveTrading : Bool
  symbol : String
  interval : String
  daysBack : Int
  takeProfit : Rat
  stopLoss : Rat
  fastLength : Int
  slowLength : Int
  signalSmoothing : Int
deriving DecidableEq

/-- The initialState object of TradingContext.js. -/
def initialState : TradingState :=
  { data := none
    indicators := none
    trades := none
    performance := none
    loading := false
    error := none
    isConnected := false
    isLiveTrading := false
    symbol := "ROSEUSDT"
    interval := "5m"
    daysBack := 7
    takeProfit := 2
    stopLoss := 1
    fastLength := 12
    slowLength := 26
    signalSmoothing := 9 }

/-- A partial payload for UPDATE_CONFIG / UPDATE_STRATEGY_PARAMS: the JS object
spread `\x7b ...state, ...action.payload \x7d` can overwrite any subset of the
state fields, so every field is optional. -/
structure Patch where
  data : Option (Option MarketDataset)
  indicators : Option (Option Indicators)
  trades : Option (Option (List Trade))
  performance : Option (Option Performance)
  loading : Option Bool
  error : Option (Option String)
  isConnected : Option Bool
  isLiveTrading : Option Bool
  symbol : Option String
  interval : Option String
  daysBack : Option Int
  takeProfit : Option Rat
  stopLoss : Option Rat
  fastLength : Option Int
  slowLength : Option Int
  signalSmoothing : Option Int
deriving DecidableEq

/-- Shallow merge of a partial payload into the state (the JS object spread). -/
def applyPatch (s : TradingState) (p : Patch) : TradingState :=
  { data := p.data.getD s.data
    indicators := p.indicators.getD s.indicators
    trades := p.trades.getD s.trades
    performance := p.performance.getD s.performance
    loading := p.loading.getD s.loading
    error := p.error.getD s.error
    isConnected := p.isConnected.getD s.isConnected
    isLiveTrading := p.isLiveTrading.getD s.isLiveTrading
    symbol := p.symbol.getD s.symbol
    interval := p.interval.getD s.interval
    daysBack := p.daysBack.getD s.daysBack
    takeProfit := p.takeProfit.getD s.takeProfit
    stopLoss := p.stopLoss.getD s.stopLoss
    fastLength := p.fastLength.getD s.fastLength
    slowLength := p.slowLength.getD s.slowLength
    signalSmoothing := p.signalSmoothing.getD s.signalSmoothing }

/-- Actions of the reducer, one constructor per action type, with the payload
each action creator passes; `unknown` stands for any action type not in the
switch (handled by the default branch). -/
inductive Action where
  | setLoading (b : Bool)
  | setError (e : Option String)
  | setData (d : Option MarketDataset)
  | setIndicators (i : Option Indicators)
  | setTrades (t : Option (List Trade))
  | setPerformance (p : Option Performance)
  | setConnectionStatus (b : Bool)
  | setLiveTrading (b : Bool)
  | updateConfig (p : Patch)
  | updateStrategyParams (p : Patch)
  | clearData
  | unknown
deriving DecidableEq

/-- The tradingReducer switch of TradingContext.js, case by case. -/
def tradingReducer (s : TradingState) (a : Action) : TradingState :=
  match a with
  | .setLoading b => { s with loading := b, error := none }
  | .setError e => { s with error := e, loading := false }
  | .setData d => { s with data := d, loading := false, error := none }
  | .setIndicators i => { s with indicators := i }
  | .setTrades t => { s with trades := t }
  | .setPerformance p => { s with performance := p }
  | .setConnectionStatus b => { s with isConnected := b }
  | .setLiveTrading b => { s with isLiveTrading := b }
  | .updateConfig p => applyPatch s p
  | .updateStrategyParams p => applyPatch s p
  | .clearData =>
      { s with data := none, indicators := none, trades := none,
               performance := none, error := none }
  | .unknown => s

/-- Dispatching a sequence of actions in order. -/
def runActions (s : TradingState) (acts : List Action) : TradingState :=
  acts.foldl tradingReducer s

/-- An action is benign when, if it is a config/strategy patch, its payload
does not set the loading or error fields. -/
def benignB : Action → Bool
  | .updateConfig p => p.loading.isNone && p.error.isNone
  | .updateStrategyParams p => p.loading.isNone && p.error.isNone
  | _ => true

def benign (a : Action) : Prop := benignB a = true

instance (a : Action) : Decidable (benign a) := by
  unfold benign
  infer_instance

/-- The mutual-exclusion property: loading and a non-null error never hold together. -/
def loadErrorExclusive (s : TradingState) : Prop :=
  s.loading = false ∨ s.error = none

instance (s : TradingState) : Decidable (loadErrorExclusive s) := by
  unfold loadErrorExclusive
  infer_instance

/-- A patch whose only field is loading := true, as a dispatchable payload. -/
def loadingTruePatch : Patch :=
  { data := none, indicators := none, trades := none, performance := none,
    loading := some true, error := none, isConnected := none, isLiveTrading := none,
    symbol := none, interval := none, daysBack := none, takeProfit := none,
    stopLoss := none, fastLength := none, slowLength := none, signalSmoothing := none }

lemma loadErrorExclusive_step (s : TradingState) (a : Action)
    (hb : benign a) (hs : loadErrorExclusive s) :
    loadErrorExclusive (tradingReducer s a) := by
  cases a with
  | setLoading b => right; rfl
  | setError e => left; rfl
  | setData d => right; rfl
  | setIndicators i => exact hs
  | setTrades t => exact hs
  | setPerformance p => exact hs
  | setConnectionStatus b => exact hs
  | setLiveTrading b => exact hs
  | updateConfig p =>
      unfold benign benignB at hb
      have h1 : p.loading = none := Option.isNone_iff_eq_none.mp (Bool.and_elim_left hb)
      have h2 : p.error = none := Option.isNone_iff_eq_none.mp (Bool.and_elim_right hb)
      unfold loadErrorExclusive tradingReducer applyPatch
      simp only [h1, h2, Option.getD_none]
      exact hs
  | updateStrategyParams p =>
      unfold benign benignB at hb
      have h1 : p.loading = none := Option.isNone_iff_eq_none.mp (Bool.and_elim_left hb)
      have h2 : p.error = none := Option.isNone_iff_eq_none.mp (Bool.and_elim_right hb)
      unfold loadErrorExclusive tradingReducer applyPatch
      simp only [h1, h2, Option.getD_none]
      exact hs
  | clearData => right; rfl
  | unknown => exact hs

/-- C1 (counterexample): the invariant fails as stated. Starting from the
documented initial state, dispatch SET_ERROR and then UPDATE_CONFIG with the
partial payload \x7b loading: true \x7d: the resulting state has loading = true
and a non-null error simultaneously. -/
theorem C1_counterexample :
    (runActions initialState
        [Action.setError (some "network error"),
         Action.updateConfig loadingTruePatch]).loading = true ∧
    (runActions initialState
        [Action.setError (some "network error"),
         Action.updateConfig loadingTruePatch]).error = some "network error" := by
  constructor
  · rfl
  · rfl

/-- C1 (amended): for every starting state in which loading and a non-null
error do not hold together, and every sequence of transitions whose
UPDATE_CONFIG / UPDATE_STRATEGY_PARAMS payloads do not set the loading or
error fields, the resulting state never has loading = true and a non-null
error simultaneously (applying this to every prefix of a sequence gives the
invariant immediately after each transition). -/
theorem C1_loading_error_exclusive (s : TradingState) (acts : List Action)
    (hs : loadErrorExclusive s) (hb : ∀ a ∈ acts, benign a) :
    loadErrorExclusive (runActions s acts) := by
  induction acts generalizing s with
  | nil => exact hs
  | cons a rest ih =>
      have ha : benign a := hb a (List.mem_cons_self a rest)
      have hrest : ∀ x ∈ rest, benign x := fun x hx => hb x (List.mem_cons_of_mem a hx)
      exact ih (tradingReducer s a) (loadErrorExclusive_step s a ha hs) hrest

/-- C1 (witness): the amended invariant applied at a concrete starting state
and a concrete benign action sequence. -/
theorem C1_loading_error_exclusive_witness :
    loadErrorExclusive
      (runActions initialState
        [Action.setLoading true, Action.setError (some "boom"), Action.setLoading false]) :=
  C1_loading_error_exclusive initialState
    [Action.setLoading true, Action.setError (some "boom"), Action.setLoading false]
    (by decide) (by decide)

/-- C3: the CLEAR_DATA transition nulls data, indicators, trades, performance
and error, and leaves loading, isConnected and isLiveTrading exactly as they
were, for every prior state. -/
theorem C3_clear_data (s : TradingState) :
    (tradingReducer s Action.clearData).data = none ∧
    (tradingReducer s Action.clearData).indicators = none ∧
    (tradingReducer s Action.clearData).trades = none ∧
    (tradingReducer s Action.clearData).performance = none ∧
    (tradingReducer s Action.clearData).error = none ∧
    (tradingReducer s Action.clearData).loading = s.loading ∧
    (tradingReducer s Action.clearData).isConnected = s.isConnected ∧
    (tradingReducer s Action.clearData).isLiveTrading = s.isLiveTrading :=
  ⟨rfl, rfl, rfl, rfl, rfl, rfl, rfl, rfl⟩

/-- C10: for every prior state and every payload b, the SET_LOADING transition
sets error to null (and loading to b) — in particular dispatching it with
b = false also erases any previously recorded error. -/
theorem C10_set_loading_clears_error (s : TradingState) (b : Bool) :
    (tradingReducer s (Action.setLoading b)).error = none ∧
    (tradingReducer s (Action.setLoading b)).loading = b :=
  ⟨rfl, rfl⟩

/-! ## OverlayBuilder oscillator view: MACDChart crossover alignment -/

/-- The JavaScript Array.prototype.findIndex, returning none instead of -1:
the first index whose element satisfies the predicate. -/
def findIndexJs (p : α → Bool) : List α → Option Nat
  | [] => none
  | x :: xs => if p x then some 0 else (findIndexJs p xs).map (· + 1)

/-- A crossover marker point: x is the trade entry date, y the MACD value at
the aligned index (none models the JS undefined when values is too short). -/
structure CrossPoint where
  x : Int
  y : Option Rat
deriving DecidableEq

/-- The entryIndex computation of MACDChart: first oscillator timestamp ≥ the
trade entry timestamp. -/
def alignIdx (m : Macd) (t : Trade) : Option Nat :=
  findIndexJs (fun ts => decide (t.entry_date ≤ ts)) m.timestamps

/-- One trade's crossover marker: built when entryIndex ≥ 0, with
y = macd.values[entryIndex]; null (dropped) otherwise. -/
def crossoverPoint (m : Macd) (t : Trade) : Option CrossPoint :=
  match alignIdx m t with
  | some i => some ⟨t.entry_date, m.values.get? i⟩
  | none => none

/-- The crossoverPoints list of MACDChart: map then filter(Boolean). -/
def crossoverPoints (m : Macd) (trades : List Trade) : List CrossPoint :=
  trades.filterMap (crossoverPoint m)

lemma findIndexJs_eq_none_iff (p : α → Bool) (l : List α) :
    findIndexJs p l = none ↔ ∀ x ∈ l, p x = false := by
  induction l with
  | nil => simp [findIndexJs]
  | cons x xs ih =>
      by_cases hx : p x = true
      · simp [findIndexJs, hx]
      · have hx' : p x = false := by
          cases h : p x
          · rfl
          · exact absurd h hx
        simp [findIndexJs, hx', Option.map_eq_none', ih]

lemma findIndexJs_eq_some (p : α → Bool) (l : List α) (i : Nat)
    (h : findIndexJs p l = some i) :
    (∃ x, l.get? i = some x ∧ p x = true) ∧
    (∀ j y, j < i → l.get? j = some y → p y = false) := by
  induction l generalizing i with
  | nil => simp [findIndexJs] at h
  | cons x xs ih =>
      by_cases hx : p x = true
      · simp [findIndexJs, hx] at h
        subst h
        refine ⟨⟨x, rfl, hx⟩, ?_⟩
        intro j y hj
        exact absurd hj (Nat.not_lt_zero j)
      · have hx' : p x = false := by
          cases hc : p x
          · rfl
          · exact absurd hc hx
        simp only [findIndexJs] at h
        rw [if_neg hx, Option.map_eq_some'] at h
        obtain ⟨i', hi', hadd⟩ := h
        subst hadd
        obtain ⟨⟨y, hy, hpy⟩, hall⟩ := ih i' hi'
        refine ⟨⟨y, by simpa using hy, hpy⟩, ?_⟩
        intro j z hj hz
        cases j with
        | zero =>
            simp only [List.get?_cons_zero, Option.some.injEq] at hz
            subst hz
            exact hx'
        | succ j =>
            exact hall j z (Nat.lt_of_succ_lt_succ hj) (by simpa using hz)

/-- C2: for a strictly increasing oscillator timestamp sequence and a trade
entry timestamp, the crossover alignment selects exactly the smallest index i
whose timestamp is ≥ the entry timestamp, and the marker's y-value is the
oscillator value at that index; when every timestamp is < the entry
timestamp, the trade contributes no marker (and, the builder being a total
function, no error). -/
theorem C2_crossover_alignment (m : Macd) (t : Trade)
    (hmono : m.timestamps.Chain' (· < ·)) :
    (∀ i, alignIdx m t = some i →
        (∃ u, m.timestamps.get? i = some u ∧ t.entry_date ≤ u) ∧
        (∀ j u, j < i → m.timestamps.get? j = some u → u < t.entry_date) ∧
        crossoverPoint m t = some ⟨t.entry_date, m.values.get? i⟩) ∧
    (alignIdx m t = none ↔ ∀ u ∈ m.timestamps, u < t.entry_date) ∧
    ((∀ u ∈ m.timestamps, u < t.entry_date) →
        crossoverPoint m t = none ∧ crossoverPoints m [t] = []) := by
  refine ⟨?_, ?_, ?_⟩
  · intro i hi
    obtain ⟨⟨u, hu, hpu⟩, hall⟩ := findIndexJs_eq_some _ _ _ hi
    refine ⟨⟨u, hu, of_decide_eq_true hpu⟩, ?_, ?_⟩
    · intro j v hj hv
      have := hall j v hj hv
      exact lt_of_not_le (of_decide_eq_false this)
    · simp [crossoverPoint, hi]
  · rw [alignIdx, findIndexJs_eq_none_iff]
    constructor
    · intro h u hu
      exact lt_of_not_le (of_decide_eq_false (h u hu))
    · intro h u hu
      exact decide_eq_false (not_le.mpr (h u hu))
  · intro h
    have hnone : alignIdx m t = none := by
      rw [alignIdx, findIndexJs_eq_none_iff]
      intro u hu
      exact decide_eq_false (not_le.mpr (h u hu))
    constructor
    · simp [crossoverPoint, hnone]
    · simp [crossoverPoints, crossoverPoint, hnone]

/-- A concrete MACD series for the alignment witness. -/
def macdW : Macd :=
  { timestamps := [1, 3, 5], values := [10, 20, 30],
    signal := [1, 2, 3], histogram := [9, 18, 27] }

/-- A concrete trade entering at time 2 for the alignment witness. -/
def tradeW : Trade :=
  { entry_date := 2, exit_date := 4, entry_price := 1, exit_price := 2,
    return_pct := 1, exit_reason := "take_profit" }

/-- C2 (witness): the alignment theorem applied at a concrete strictly
increasing series and a concrete trade. -/
theorem C2_crossover_alignment_witness :
    (∀ i, alignIdx macdW tradeW = some i →
        (∃ u, macdW.timestamps.get? i = some u ∧ tradeW.entry_date ≤ u) ∧
        (∀ j u, j < i → macdW.timestamps.get? j = some u → u < tradeW.entry_date) ∧
        crossoverPoint macdW tradeW = some ⟨tradeW.entry_date, macdW.values.get? i⟩) ∧
    (alignIdx macdW tradeW = none ↔ ∀ u ∈ macdW.timestamps, u < tradeW.entry_date) ∧
    ((∀ u ∈ macdW.timestamps, u < tradeW.entry_date) →
        crossoverPoint macdW tradeW = none ∧ crossoverPoints macdW [tradeW] = []) :=
  C2_crossover_alignment macdW tradeW
    (by norm_num [macdW, List.chain'_cons, List.chain'_singleton])

/-! ## OverlayBuilder price view: CandlestickChart -/

/-- Renderable traces of the price view, with the data each trace carries. -/
inductive Trace where
  | candlestick (x : List Int) (op hi lo cl : List Rat)
  | emaLine (x : List Int) (y : List Rat)
  | buySignals (x : List Int) (y : List Rat)
  | exitSignals (x : List Int) (y : List Rat) (profit : List Bool) (text : List String)
deriving DecidableEq

/-- JavaScript Number.prototype.toFixed(2) on a rational: round to the
nearest hundredth, halves away from zero, and render with two decimals. -/
def toFixed2 (q : Rat) : String :=
  let neg := q < (0 : Rat)
  let aq := if neg then -q else q
  let num := aq.num.toNat
  let den := aq.den
  let n := (200 * num + den) / (2 * den)
  let ip := n / 100
  let fp := n % 100
  let fpStr := if fp < 10 then "0" ++ toString fp else toString fp
  (if neg then "-" else "") ++ toString ip ++ "." ++ fpStr

/-- The exit-marker profit classification: return_pct > 0 (the marker color map). -/
def exitProfit (t : Trade) : Bool :=
  decide (t.return_pct > 0)

/-- The exit-marker hover label of CandlestickChart:
exit_reason, then the return percentage via toFixed(2). -/
def exitLabel (t : Trade) : String :=
  t.exit_reason ++ "<br>Return: " ++ toFixed2 (t.return_pct * 100) ++ "%"

/-- Substring containment, via the character lists. -/
def strContains (s sub : String) : Prop :=
  sub.toList <:+: s.toList

instance (s sub : String) : Decidable (strContains s sub) := by
  unfold strContains
  infer_instance

/-- The chartData construction of CandlestickChart: empty when data or
indicators is null; otherwise the candlestick trace, the 200 EMA trace when
the series is present and non-empty, and — when trades exist and are
non-empty — the buy-signal and exit-signal marker traces, in that order. -/
def candlestickChartData (data : Option MarketDataset) (indicators : Option Indicators)
    (trades : Option (List Trade)) : List Trace :=
  match data, indicators with
  | some d, some ind =>
      [Trace.candlestick d.timestamps (d.ohlcv.map OHLCVBar.Open) (d.ohlcv.map OHLCVBar.High)
         (d.ohlcv.map OHLCVBar.Low) (d.ohlcv.map OHLCVBar.Close)]
      ++ (match ind.ema_200 with
          | some e => if 0 < e.values.length then [Trace.emaLine e.timestamps e.values] else []
          | none => [])
      ++ (match trades with
          | some trs =>
              if 0 < trs.length then
                [Trace.buySignals (trs.map Trade.entry_date) (trs.map Trade.entry_price),
                 Trace.exitSignals (trs.map Trade.exit_date) (trs.map Trade.exit_price)
                   (trs.map exitProfit) (trs.map exitLabel)]
              else []
          | none => [])
  | _, _ => []

/-- C5: the price view yields the empty list when the dataset or the
indicators input is null; and for a dataset, a present non-empty EMA series
and a non-empty trade list, it yields exactly the N-bar OHLC trace built from
the dataset, the EMA trace, the entry markers of all trades at
(entry_date, entry_price), and the exit markers of all trades at
(exit_date, exit_price), in that order. -/
theorem C5_price_view (d : MarketDataset) (ind : Indicators) (e : Ema)
    (trs : List Trade) (hema : ind.ema_200 = some e) (hene : e.values ≠ [])
    (hM : trs ≠ []) :
    candlestickChartData (some d) (some ind) (some trs) =
      [Trace.candlestick d.timestamps (d.ohlcv.map OHLCVBar.Open) (d.ohlcv.map OHLCVBar.High)
         (d.ohlcv.map OHLCVBar.Low) (d.ohlcv.map OHLCVBar.Close),
       Trace.emaLine e.timestamps e.values,
       Trace.buySignals (trs.map Trade.entry_date) (trs.map Trade.entry_price),
       Trace.exitSignals (trs.map Trade.exit_date) (trs.map Trade.exit_price)
         (trs.map exitProfit) (trs.map exitLabel)] ∧
    (∀ ind2 tr2, candlestickChartData none ind2 tr2 = []) ∧
    (∀ d2 tr2, candlestickChartData (some d2) none tr2 = []) := by
  refine ⟨?_, ?_, ?_⟩
  · have he : 0 < e.values.length := List.length_pos.mpr hene
    have ht : 0 < trs.length := List.length_pos.mpr hM
    simp [candlestickChartData, hema, if_pos he, if_pos ht]
  · intro ind2 tr2
    rfl
  · intro d2 tr2
    rfl

/-- A concrete dataset for the price-view witness. -/
def datasetW : MarketDataset :=
  { timestamps := [1, 2, 3],
    ohlcv := [⟨1, 2, 1, 2, 5⟩, ⟨2, 3, 2, 3, 5⟩, ⟨3, 4, 3, 4, 5⟩] }

/-- A concrete indicators object with a one-point EMA series for the witness. -/
def indicatorsW : Indicators :=
  { ema_200 := some { timestamps := [1], values := [3/2] }, macd := none }

/-- C5 (witness): the price-view theorem applied at a concrete dataset,
indicators and one-trade list. -/
theorem C5_price_view_witness :
    candlestickChartData (some datasetW) (some indicatorsW) (some [tradeW]) =
      [Trace.candlestick datasetW.timestamps (datasetW.ohlcv.map OHLCVBar.Open)
         (datasetW.ohlcv.map OHLCVBar.High) (datasetW.ohlcv.map OHLCVBar.Low)
         (datasetW.ohlcv.map OHLCVBar.Close),
       Trace.emaLine [1] [3/2],
       Trace.buySignals ([tradeW].map Trade.entry_date) ([tradeW].map Trade.entry_price),
       Trace.exitSignals ([tradeW].map Trade.exit_date) ([tradeW].map Trade.exit_price)
         ([tradeW].map exitProfit) ([tradeW].map exitLabel)] ∧
    (∀ ind2 tr2, candlestickChartData none ind2 tr2 = []) ∧
    (∀ d2 tr2, candlestickChartData (some d2) none tr2 = []) :=
  C5_price_view datasetW indicatorsW { timestamps := [1], values := [3/2] } [tradeW]
    rfl (by decide) (by decide)

/-- The rational -0.013, given in lowest terms so the kernel can evaluate it. -/
def ratNeg013 : Rat := ⟨-13, 1000, by norm_num, by norm_num⟩

/-- The rational -1.3, given in lowest terms so the kernel can evaluate it. -/
def ratNeg13over10 : Rat := ⟨-13, 10, by norm_num, by norm_num⟩

/-- The concrete losing trade of the C8 scenario: return_pct = -0.013,
exit_reason = stop_loss. -/
def tradeC8 : Trade :=
  { entry_date := 10, exit_date := 20, entry_price := 1, exit_price := 987/1000,
    return_pct := ratNeg013, exit_reason := "stop_loss" }

/-- A concrete breakeven trade: return_pct = 0. -/
def tradeBreakeven : Trade :=
  { entry_date := 10, exit_date := 20, entry_price := 1, exit_price := 1,
    return_pct := 0, exit_reason := "end_of_period" }

/-- C8: an exit marker is classified profit exactly when return_pct > 0 — in
particular a breakeven trade (return_pct = 0) is classified as loss — and its
label is the exit_reason followed by the return percentage; the concrete trade
with return_pct = -0.013 and exit_reason = stop_loss is classified negative
and its label contains both stop_loss and -1.30%. -/
theorem C8_exit_marker_classification :
    (∀ t : Trade, exitProfit t = true ↔ 0 < t.return_pct) ∧
    (∀ t : Trade,
        exitLabel t = t.exit_reason ++ "<br>Return: " ++ toFixed2 (t.return_pct * 100) ++ "%") ∧
    exitProfit tradeBreakeven = false ∧
    exitProfit tradeC8 = false ∧
    strContains (exitLabel tradeC8) "stop_loss" ∧
    strContains (exitLabel tradeC8) "-1.30%" := by
  have hmul : tradeC8.return_pct * 100 = ratNeg13over10 := by
    show ratNeg013 * 100 = ratNeg13over10
    rw [ratNeg013, ratNeg13over10, Rat.mk'_eq_divInt, Rat.mk'_eq_divInt]
    norm_num [Rat.divInt_eq_div]
  refine ⟨?_, ?_, ?_, ?_, ?_, ?_⟩
  · intro t
    simp [exitProfit]
  · intro t
    rfl
  · decide
  · decide
  · show strContains (tradeC8.exit_reason ++ "<br>Return: " ++
        toFixed2 (tradeC8.return_pct * 100) ++ "%") "stop_loss"
    rw [hmul]
    decide
  · show strContains (tradeC8.exit_reason ++ "<br>Return: " ++
        toFixed2 (tradeC8.return_pct * 100) ++ "%") "-1.30%"
    rw [hmul]
    decide

/-! ## MetricClassifier: PerformanceMetrics.getMetricType -/

inductive MetricType where
  | positive
  | negative
  | neutral
deriving DecidableEq

/-- The getMetricType function of PerformanceMetrics.js. -/
def getMetricType (value threshold : Rat) : MetricType :=
  if value > threshold then .positive
  else if value < threshold then .negative
  else .neutral

/-- The max-drawdown card classification: getMetricType(-max_drawdown, -10). -/
def maxDrawdownType (p : Performance) : MetricType :=
  getMetricType (-p.max_drawdown) (-10)

/-- C6: classify returns positive iff value > threshold, negative iff
value < threshold, neutral iff they are equal; the five documented sample
evaluations hold; the max-drawdown card applies classify(-max_drawdown, -10),
which — drawdown magnitudes being reported non-negative — is positive exactly
when the drawdown magnitude is below 10. -/
theorem C6_metric_classifier (v th : Rat) (p : Performance)
    (hd : 0 ≤ p.max_drawdown) :
    (getMetricType v th = .positive ↔ th < v) ∧
    (getMetricType v th = .negative ↔ v < th) ∧
    (getMetricType v th = .neutral ↔ v = th) ∧
    getMetricType 5 0 = .positive ∧
    getMetricType (-5) 0 = .negative ∧
    getMetricType 0 0 = .neutral ∧
    getMetricType 45 50 = .negative ∧
    getMetricType (3/2) 1 = .positive ∧
    maxDrawdownType p = getMetricType (-p.max_drawdown) (-10) ∧
    (maxDrawdownType p = .positive ↔ |p.max_drawdown| < 10) := by
  have habs : |p.max_drawdown| = p.max_drawdown := abs_of_nonneg hd
  refine ⟨?_, ?_, ?_, by norm_num [getMetricType], by norm_num [getMetricType],
      by norm_num [getMetricType], by norm_num [getMetricType],
      by norm_num [getMetricType], rfl, ?_⟩
  · unfold getMetricType
    rcases lt_trichotomy v th with h | h | h
    · simp [not_lt_of_lt h, h]
    · simp [h]
    · simp [h, not_lt_of_lt h]
  · unfold getMetricType
    rcases lt_trichotomy v th with h | h | h
    · simp [not_lt_of_lt h, h]
    · simp [h]
    · simp [h, not_lt_of_lt h]
  · unfold getMetricType
    rcases lt_trichotomy v th with h | h | h
    · simp [not_lt_of_lt h, h, ne_of_lt h]
    · simp [h]
    · simp [h, not_lt_of_lt h, (ne_of_lt h).symm]
  · unfold maxDrawdownType getMetricType
    rw [habs]
    constructor
    · intro h
      by_contra hge
      rw [if_neg (by simpa using not_lt.mpr (by linarith [not_lt.mp hge]))] at h
      split at h <;> simp at h
    · intro h
      rw [if_pos (by simpa using h)]

/-- A concrete performance summary with max_drawdown = 5 for the C6 witness. -/
def perfW : Performance :=
  { total_return := 12, win_rate := 60, total_trades := 10, winning_trades := 6,
    losing_trades := 4, average_return := 1, best_trade := 5, worst_trade := -2,
    max_drawdown := 5, take_profit_hits := 3, stop_loss_hits := 2, sharpe_ratio := 2 }

/-- C6 (witness): the classifier theorem applied at concrete value, threshold
and performance summary. -/
theorem C6_metric_classifier_witness :
    (getMetricType 7 2 = .positive ↔ (2 : Rat) < 7) ∧
    (getMetricType 7 2 = .negative ↔ (7 : Rat) < 2) ∧
    (getMetricType 7 2 = .neutral ↔ (7 : Rat) = 2) ∧
    getMetricType 5 0 = .positive ∧
    getMetricType (-5) 0 = .negative ∧
    getMetricType 0 0 = .neutral ∧
    getMetricType 45 50 = .negative ∧
    getMetricType (3/2) 1 = .positive ∧
    maxDrawdownType perfW = getMetricType (-perfW.max_drawdown) (-10) ∧
    (maxDrawdownType perfW = .positive ↔ |perfW.max_drawdown| < 10) :=
  C6_metric_classifier 7 2 perfW (by norm_num [perfW])

/-! ## BackendGateway: the useTradingData hook -/

/-- The local state atoms of the useTradingData hook (independent useState
cells, unlike the reducer: setLoading here does not clear error). -/
structure HookState where
  data : Option MarketDataset
  indicators : Option Indicators
  trades : Option (List Trade)
  performance : Option Performance
  loading : Bool
  error : Option String
deriving DecidableEq

/-- JavaScript a || b for a string that may be null/undefined: the default is
used when the string is absent or empty (falsy). -/
def jsOrS : Option String → String → String
  | some s, d => if s.isEmpty then d else s
  | none, d => d

/-- The catch-clause message chain err.response?.data?.error || err.message || dflt. -/
def catchMsg (respErr : Option String) (msg : Option String) (dflt : String) : String :=
  jsOrS respErr (jsOrS msg dflt)

/-- Outcome of one data fetch: the parsed envelope on HTTP success (with its
success flag), or a transport failure with the axios error fields. -/
inductive FetchResponse where
  | ok (d : MarketDataset) (ind : Indicators)
  | domainFail (e : Option String)
  | transportFail (respErr : Option String) (msg : String)
deriving DecidableEq

/-- The results object of a successful backtest envelope. -/
structure BacktestResults where
  trades : Option (List Trade)
  performance : Option Performance
deriving DecidableEq

/-- Outcome of one backtest call. -/
inductive BacktestResponse where
  | ok (results : BacktestResults)
  | domainFail (e : Option String)
  | transportFail (respErr : Option String) (msg : String)
deriving DecidableEq

/-- Outcome of one metadata query (symbols or intervals): the parsed body
with its optional list field, or any thrown failure. -/
inductive MetaResponse where
  | ok (items : Option (List String))
  | fail
deriving DecidableEq

/-- The state effect of one completed fetchData call: setLoading(true),
setError(null), then the branch on the response, then finally setLoading(false). -/
def fetchData (s : HookState) (resp : FetchResponse) : HookState :=
  let s1 : HookState := { s with loading := true, error := none }
  match resp with
  | .ok d ind =>
      { s1 with data := some d, indicators := some ind, loading := false }
  | .domainFail e =>
      let thrown := jsOrS e "Failed to fetch data"
      { s1 with error := some (catchMsg none (some thrown) "Failed to fetch data"),
                loading := false }
  | .transportFail respErr msg =>
      { s1 with error := some (catchMsg respErr (some msg) "Failed to fetch data"),
                loading := false }

/-- The state effect of one completed runBacktest call; on success the trades
default to [] and the performance to null when absent; on success:false the
thrown message is response.error || a default, re-caught locally. -/
def runBacktest (s : HookState) (resp : BacktestResponse) : HookState :=
  let s1 : HookState := { s with loading := true, error := none }
  match resp with
  | .ok results =>
      { s1 with trades := some (results.trades.getD []),
                performance := results.performance,
                loading := false }
  | .domainFail e =>
      let thrown := jsOrS e "Backtest failed"
      { s1 with error := some (catchMsg none (some thrown) "Backtest failed"),
                loading := false }
  | .transportFail respErr msg =>
      { s1 with error := some (catchMsg respErr (some msg) "Backtest failed"),
                loading := false }

/-- The getSymbols call: returns response.data.symbols || [], and [] on any
failure; it never touches the store state. -/
def getSymbols (s : HookState) (resp : MetaResponse) : HookState × List String :=
  match resp with
  | .ok items => (s, items.getD [])
  | .fail => (s, [])

/-- The getIntervals call: returns response.data.intervals || [], and [] on
any failure; it never touches the store state. -/
def getIntervals (s : HookState) (resp : MetaResponse) : HookState × List String :=
  match resp with
  | .ok items => (s, items.getD [])
  | .fail => (s, [])

/-- C4: when runBacktest receives a well-formed response with success = false
and error = "insufficient data", the store ends with that error verbatim and
loading = false, and trades and performance are exactly what they were before
the call, for every prior state. -/
theorem C4_backtest_domain_failure (s : HookState) :
    (runBacktest s (BacktestResponse.domainFail (some "insufficient data"))).error =
      some "insufficient data" ∧
    (runBacktest s (BacktestResponse.domainFail (some "insufficient data"))).loading = false ∧
    (runBacktest s (BacktestResponse.domainFail (some "insufficient data"))).trades = s.trades ∧
    (runBacktest s (BacktestResponse.domainFail (some "insufficient data"))).performance =
      s.performance :=
  ⟨rfl, rfl, rfl, rfl⟩

/-- C7: every failure of the symbols/intervals metadata queries yields the
empty list and leaves the store untouched (no error recorded) — likewise a
body missing the list field — whereas every failure of the data-bearing calls
records a non-null store error: the two policies are distinct. -/
theorem C7_metadata_vs_data_error_policy (s : HookState) (e : Option String)
    (respErr : Option String) (msg : String) :
    getSymbols s MetaResponse.fail = (s, []) ∧
    getIntervals s MetaResponse.fail = (s, []) ∧
    getSymbols s (MetaResponse.ok none) = (s, []) ∧
    getIntervals s (MetaResponse.ok none) = (s, []) ∧
    ((fetchData s (FetchResponse.domainFail e)).error).isSome = true ∧
    ((fetchData s (FetchResponse.transportFail respErr msg)).error).isSome = true ∧
    ((runBacktest s (BacktestResponse.domainFail e)).error).isSome = true ∧
    ((runBacktest s (BacktestResponse.transportFail respErr msg)).error).isSome = true :=
  ⟨rfl, rfl, rfl, rfl, rfl, rfl, rfl, rfl⟩

/-- The config argument of runBacktest: any subset of the request fields may
be supplied by the caller. -/
structure BacktestConfigIn where
  days_back : Option Rat
  timezone : Option String
  take_profit : Option Rat
  stop_loss : Option Rat
  fast_length : Option Rat
  slow_length : Option Rat
  signal_smoothing : Option Rat
deriving DecidableEq

/-- The JSON body POSTed by runBacktest. -/
structure BacktestBody where
  days_back : Rat
  timezone : String
  take_profit : Rat
  stop_loss : Rat
  fast_length : Rat
  slow_length : Rat
  signal_smoothing : Rat
deriving DecidableEq

/-- JavaScript v || d for a number that may be null/undefined: the default is
used when the value is absent or 0 (falsy). -/
def jsOrNum (v : Option Rat) (d : Rat) : Rat :=
  match v with
  | some x => if x = 0 then d else x
  | none => d

/-- The request-body construction of runBacktest, field by field. -/
def buildBacktestBody (c : BacktestConfigIn) : BacktestBody :=
  { days_back := jsOrNum c.days_back 7
    timezone := jsOrS c.timezone "Asia/Singapore"
    take_profit := jsOrNum c.take_profit (1/50)
    stop_loss := jsOrNum c.stop_loss (1/100)
    fast_length := jsOrNum c.fast_length 12
    slow_length := jsOrNum c.slow_length 26
    signal_smoothing := jsOrNum c.signal_smoothing 9 }

/-- C9: the runBacktest request body replaces each config field by its
default not only when it is absent but whenever it is 0 (falsy): a supplied
take_profit of 0 is sent as 0.02 and a stop_loss of 0 as 0.01, a supplied
non-zero value passes through, and consequently the body never carries 0 in
take_profit or stop_loss — 0 is not a representable value at this interface. -/
theorem C9_falsy_config_defaults (c : BacktestConfigIn) (x : Rat) (hx : x ≠ 0) :
    (c.take_profit = some 0 → (buildBacktestBody c).take_profit = 1/50) ∧
    (c.take_profit = none → (buildBacktestBody c).take_profit = 1/50) ∧
    (c.take_profit = some x → (buildBacktestBody c).take_profit = x) ∧
    (c.stop_loss = some 0 → (buildBacktestBody c).stop_loss = 1/100) ∧
    (c.stop_loss = none → (buildBacktestBody c).stop_loss = 1/100) ∧
    (c.stop_loss = some x → (buildBacktestBody c).stop_loss = x) ∧
    (c.days_back = some 0 → (buildBacktestBody c).days_back = 7) ∧
    (c.fast_length = some 0 → (buildBacktestBody c).fast_length = 12) ∧
    (c.slow_length = some 0 → (buildBacktestBody c).slow_length = 26) ∧
    (c.signal_smoothing = some 0 → (buildBacktestBody c).signal_smoothing = 9) ∧
    (buildBacktestBody c).take_profit ≠ 0 ∧
    (buildBacktestBody c).stop_loss ≠ 0 := by
  have hnum : ∀ (v : Option Rat) (d : Rat), d ≠ 0 → jsOrNum v d ≠ 0 := by
    intro v d hd
    match v with
    | none => exact hd
    | some y =>
        by_cases hy : y = 0
        · simp [jsOrNum, hy]
          exact hd
        · simpa [jsOrNum, hy] using hy
  refine ⟨?_, ?_, ?_, ?_, ?_, ?_, ?_, ?_, ?_, ?_, ?_, ?_⟩
  · intro h; simp [buildBacktestBody, jsOrNum, h]
  · intro h; simp [buildBacktestBody, jsOrNum, h]
  · intro h; simp [buildBacktestBody, jsOrNum, h, hx]
  · intro h; simp [buildBacktestBody, jsOrNum, h]
  · intro h; simp [buildBacktestBody, jsOrNum, h]
  · intro h; simp [buildBacktestBody, jsOrNum, h, hx]
  · intro h; simp [buildBacktestBody, jsOrNum, h]
  · intro h; simp [buildBacktestBody, jsOrNum, h]
  · intro h; simp [buildBacktestBody, jsOrNum, h]
  · intro h; simp [buildBacktestBody, jsOrNum, h]
  · exact hnum _ _ (by norm_num)
  · exact hnum _ _ (by norm_num)

/-- A concrete config supplying 0 for take_profit and stop_loss. -/
def configW : BacktestConfigIn :=
  { days_back := some 0, timezone := none, take_profit := some 0,
    stop_loss := some 0, fast_length := none, slow_length := none,
    signal_smoothing := none }

/-- C9 (witness): the defaults theorem applied at the concrete all-zero config. -/
theorem C9_falsy_config_defaults_witness :
    (configW.take_profit = some 0 → (buildBacktestBody configW).take_profit = 1/50) ∧
    (configW.take_profit = none → (buildBacktestBody configW).take_profit = 1/50) ∧
    (configW.take_profit = some 5 → (buildBacktestBody configW).take_profit = 5) ∧
    (configW.stop_loss = some 0 → (buildBacktestBody configW).stop_loss = 1/100) ∧
    (configW.stop_loss = none → (buildBacktestBody configW).stop_loss = 1/100) ∧
    (configW.stop_loss = some 5 → (buildBacktestBody configW).stop_loss = 5) ∧
    (configW.days_back = some 0 → (buildBacktestBody configW).days_back = 7) ∧
    (configW.fast_length = some 0 → (buildBacktestBody configW).fast_length = 12) ∧
    (configW.slow_length = some 0 → (buildBacktestBody configW).slow_length = 26) ∧
    (configW.signal_smoothing = some 0 → (buildBacktestBody configW).signal_smoothing = 9) ∧
    (buildBacktestBody configW).take_profit ≠ 0 ∧
    (buildBacktestBody configW).stop_loss ≠ 0 :=
  C9_falsy_config_defaults configW 5 (by norm_num)

end TradingBot
